import Mathlib

/-!
Verification of the Gradio-Space adapter (two components:
`litellm/llms/gradio_space/chat/transformation.py` and `my_ai.py`).

The embedding models the Python fragments the claims are about:
Python runtime values (`PyVal`), the exceptions the relevant expressions can
raise (`PyErr`), the subset of `json.loads` behaviour exercised by the code,
the payload builder `_build_payload`, the non-streaming decoder
`transform_response` / `_call_space`, and the streaming loops
(`_stream_space` + `streaming` in `my_ai.py`,
`get_sync_custom_stream_wrapper` / `get_async_custom_stream_wrapper` in
`transformation.py`).  Fallible expressions are embedded as `Except PyErr`,
generators as the list of values they yield.  Python byte strings are
represented by their character content (all stream inputs in the claims are
ASCII, so `bytes.decode()` is the identity on this representation); float
literals, on which the code performs no arithmetic, are represented as exact
rationals.
-/

/-- Exceptions the embedded Python expressions can raise. -/
inductive PyErr where
  | typeError
  | keyError
  | indexError
  | attributeError
  | jsonDecodeError
  deriving DecidableEq

/-- Python runtime values, as produced by the adapter code and by
`json.loads`: `None`, booleans, ints, floats (exact rationals — the adapter
never computes with them), text strings, byte strings (represented by their
decoded content), lists, and string-keyed dicts (the only dicts appearing in
the code and in parsed JSON). -/
inductive PyVal where
  | none
  | bool (b : Bool)
  | int (n : Int)
  | float (q : ℚ)
  | str (s : String)
  | bytes (s : String)
  | list (xs : List PyVal)
  | dict (kvs : List (String × PyVal))

/-- Python truthiness, as used by the `or` in `_build_payload`. -/
def pyTruthy : PyVal → Bool
  | PyVal.none => false
  | PyVal.bool b => b
  | PyVal.int n => decide (n ≠ 0)
  | PyVal.float q => decide (q ≠ 0)
  | PyVal.str s => decide (s ≠ "")
  | PyVal.bytes s => decide (s ≠ "")
  | PyVal.list xs => !xs.isEmpty
  | PyVal.dict kvs => !kvs.isEmpty

/-- Lookup in a Python dict built from an association list, later bindings
shadowing earlier ones (as in a dict literal or `json.loads`, where a
repeated key keeps the last value). -/
def dictGet : List (String × PyVal) → String → Option PyVal
  | [], _ => Option.none
  | (k, v) :: rest, key =>
    match dictGet rest key with
    | Option.some r => Option.some r
    | Option.none => if k = key then Option.some v else Option.none

/-- Python subscript `v[0]` with the int key `0`: indexes lists, strings and
byte strings (raising `IndexError` when empty; a byte string yields the byte
as an int), raises `KeyError` on a string-keyed dict, and `TypeError` on
non-subscriptable values. -/
def pyIndexZero : PyVal → Except PyErr PyVal
  | PyVal.list (x :: _) => Except.ok x
  | PyVal.list [] => Except.error PyErr.indexError
  | PyVal.str s =>
    match s.data with
    | c :: _ => Except.ok (PyVal.str (String.mk [c]))
    | [] => Except.error PyErr.indexError
  | PyVal.bytes s =>
    match s.data with
    | c :: _ => Except.ok (PyVal.int c.toNat)
    | [] => Except.error PyErr.indexError
  | PyVal.dict _ => Except.error PyErr.keyError
  | _ => Except.error PyErr.typeError

/-- Python subscript `v[key]` with a string key: looks the key up in a dict
(raising `KeyError` when absent) and raises `TypeError` on every other
value. -/
def pySubscrStr : PyVal → String → Except PyErr PyVal
  | PyVal.dict kvs, key =>
    match dictGet kvs key with
    | Option.some v => Except.ok v
    | Option.none => Except.error PyErr.keyError
  | _, _ => Except.error PyErr.typeError

/-- Left brace character (spelled via its code point). -/
def lbrace : Char := Char.ofNat 123

/-- Right brace character (spelled via its code point). -/
def rbrace : Char := Char.ofNat 125

/-- JSON whitespace. -/
def isJsonWs (c : Char) : Bool :=
  c = ' ' || c = '\n' || c = '\r' || c = '\t'

/-- Skip leading JSON whitespace. -/
def skipWs : List Char → List Char
  | c :: cs => if isJsonWs c then skipWs cs else c :: cs
  | [] => []

/-- Value of a decimal digit. -/
def digitVal (c : Char) : Option Nat :=
  if '0' ≤ c ∧ c ≤ '9' then Option.some (c.toNat - 48) else Option.none

/-- Value of a hexadecimal digit. -/
def hexVal (c : Char) : Option Nat :=
  if '0' ≤ c ∧ c ≤ '9' then Option.some (c.toNat - 48)
  else if 'a' ≤ c ∧ c ≤ 'f' then Option.some (c.toNat - 97 + 10)
  else if 'A' ≤ c ∧ c ≤ 'F' then Option.some (c.toNat - 65 + 10)
  else Option.none

/-- Longest leading run of decimal digits. -/
def takeDigits : List Char → List Nat × List Char
  | c :: cs =>
    match digitVal c with
    | Option.some d =>
      let (ds, rest) := takeDigits cs
      (d :: ds, rest)
    | Option.none => ([], c :: cs)
  | [] => ([], [])

/-- Decimal value of a digit list. -/
def digitsToNat (ds : List Nat) : Nat :=
  ds.foldl (fun a d => a * 10 + d) 0

/-- Body of a JSON string after the opening quote, with the standard
escapes; returns the decoded characters and the input after the closing
quote.  Fuelled by the input length. -/
def parseStrBody : Nat → List Char → Option (List Char × List Char)
  | 0, _ => Option.none
  | Nat.succ fuel, cs =>
    match cs with
    | [] => Option.none
    | '"' :: rest => Option.some ([], rest)
    | '\\' :: e :: rest =>
      if e = 'u' then
        match rest with
        | a :: b :: c :: d :: rest2 =>
          match hexVal a, hexVal b, hexVal c, hexVal d with
          | Option.some x, Option.some y, Option.some z, Option.some w =>
            match parseStrBody fuel rest2 with
            | Option.some (body, rest3) =>
              Option.some (Char.ofNat (((x * 16 + y) * 16 + z) * 16 + w) :: body, rest3)
            | Option.none => Option.none
          | _, _, _, _ => Option.none
        | _ => Option.none
      else
        match
          (if e = '"' then Option.some '"'
           else if e = '\\' then Option.some '\\'
           else if e = '/' then Option.some '/'
           else if e = 'b' then Option.some (Char.ofNat 8)
           else if e = 'f' then Option.some (Char.ofNat 12)
           else if e = 'n' then Option.some '\n'
           else if e = 'r' then Option.some '\r'
           else if e = 't' then Option.some '\t'
           else Option.none) with
        | Option.some c =>
          match parseStrBody fuel rest with
          | Option.some (body, rest2) => Option.some (c :: body, rest2)
          | Option.none => Option.none
        | Option.none => Option.none
    | c :: rest =>
      if c.toNat < 32 then Option.none
      else
        match parseStrBody fuel rest with
        | Option.some (body, rest2) => Option.some (c :: body, rest2)
        | Option.none => Option.none

/-- Match an expected literal character sequence. -/
def expectChars : List Char → List Char → Option (List Char)
  | [], cs => Option.some cs
  | l :: ls, c :: cs => if c = l then expectChars ls cs else Option.none
  | _ :: _, [] => Option.none

/-- JSON number starting at the input (sign, integer part, optional
fraction, optional exponent).  An integer literal yields a Python int, any
fraction or exponent a float. -/
def parseNumber (cs : List Char) : Option (PyVal × List Char) :=
  let (neg, cs1) :=
    match cs with
    | '-' :: rest => (true, rest)
    | _ => (false, cs)
  match takeDigits cs1 with
  | ([], _) => Option.none
  | (ip :: ips, cs2) =>
    let intPart : Nat := digitsToNat (ip :: ips)
    let fracRes : Option (List Nat × List Char) :=
      match cs2 with
      | '.' :: rest =>
        match takeDigits rest with
        | ([], _) => Option.none
        | (f :: fs, rest2) => Option.some (f :: fs, rest2)
      | _ => Option.some ([], cs2)
    match fracRes with
    | Option.none => Option.none
    | Option.some (fds, cs4) =>
      let mantissa : Int :=
        Int.ofNat (intPart * 10 ^ fds.length + digitsToNat fds)
      let signedMantissa : Int := if neg then -mantissa else mantissa
      let den : Nat := 10 ^ fds.length
      let expPart :=
        match cs4 with
        | 'e' :: rest => Option.some rest
        | 'E' :: rest => Option.some rest
        | _ => Option.none
      match expPart with
      | Option.none =>
        if fds.isEmpty then
          Option.some (PyVal.int (if neg then -(Int.ofNat intPart) else Int.ofNat intPart), cs4)
        else
          Option.some (PyVal.float (mkRat signedMantissa den), cs4)
      | Option.some rest =>
        let (eneg, rest1) :=
          match rest with
          | '-' :: r => (true, r)
          | '+' :: r => (false, r)
          | _ => (false, rest)
        match takeDigits rest1 with
        | ([], _) => Option.none
        | (e :: es, rest2) =>
          let ev : Nat := digitsToNat (e :: es)
          let q : ℚ :=
            if eneg then mkRat signedMantissa (den * 10 ^ ev)
            else mkRat (signedMantissa * Int.ofNat (10 ^ ev)) den
          Option.some (PyVal.float q, rest2)

mutual

/-- JSON value starting at the input (modulo leading whitespace), fuelled. -/
def parseVal : Nat → List Char → Option (PyVal × List Char)
  | 0, _ => Option.none
  | Nat.succ fuel, cs =>
    match skipWs cs with
    | [] => Option.none
    | c :: rest =>
      if c = '"' then
        match parseStrBody (rest.length + 1) rest with
        | Option.some (body, rest2) => Option.some (PyVal.str (String.mk body), rest2)
        | Option.none => Option.none
      else if c = '[' then
        match skipWs rest with
        | ']' :: rest2 => Option.some (PyVal.list [], rest2)
        | _ =>
          match parseItems fuel rest with
          | Option.some (vs, rest2) => Option.some (PyVal.list vs, rest2)
          | Option.none => Option.none
      else if c = lbrace then
        match skipWs rest with
        | d :: rest2 =>
          if d = rbrace then Option.some (PyVal.dict [], rest2)
          else
            match parseMembers fuel rest with
            | Option.some (ms, rest3) => Option.some (PyVal.dict ms, rest3)
            | Option.none => Option.none
        | [] => Option.none
      else if c = 't' then
        match expectChars ['r', 'u', 'e'] rest with
        | Option.some rest2 => Option.some (PyVal.bool true, rest2)
        | Option.none => Option.none
      else if c = 'f' then
        match expectChars ['a', 'l', 's', 'e'] rest with
        | Option.some rest2 => Option.some (PyVal.bool false, rest2)
        | Option.none => Option.none
      else if c = 'n' then
        match expectChars ['u', 'l', 'l'] rest with
        | Option.some rest2 => Option.some (PyVal.none, rest2)
        | Option.none => Option.none
      else if c = '-' || (digitVal c).isSome then
        parseNumber (c :: rest)
      else Option.none
termination_by structural fuel _ => fuel

/-- Comma-separated JSON values up to the closing bracket, fuelled. -/
def parseItems : Nat → List Char → Option (List PyVal × List Char)
  | 0, _ => Option.none
  | Nat.succ fuel, cs =>
    match parseVal fuel cs with
    | Option.some (v, rest) =>
      match skipWs rest with
      | c :: rest2 =>
        if c = ']' then Option.some ([v], rest2)
        else if c = ',' then
          match parseItems fuel rest2 with
          | Option.some (vs, rest3) => Option.some (v :: vs, rest3)
          | Option.none => Option.none
        else Option.none
      | [] => Option.none
    | Option.none => Option.none
termination_by structural fuel _ => fuel

/-- Comma-separated JSON object members up to the closing brace, fuelled. -/
def parseMembers : Nat → List Char → Option (List (String × PyVal) × List Char)
  | 0, _ => Option.none
  | Nat.succ fuel, cs =>
    match skipWs cs with
    | c :: rest =>
      if c = '"' then
        match parseStrBody (rest.length + 1) rest with
        | Option.some (key, rest2) =>
          match skipWs rest2 with
          | c2 :: rest3 =>
            if c2 = ':' then
              match parseVal fuel rest3 with
              | Option.some (v, rest4) =>
                match skipWs rest4 with
                | c3 :: rest5 =>
                  if c3 = rbrace then Option.some ([(String.mk key, v)], rest5)
                  else if c3 = ',' then
                    match parseMembers fuel rest5 with
                    | Option.some (ms, rest6) =>
                      Option.some ((String.mk key, v) :: ms, rest6)
                    | Option.none => Option.none
                  else Option.none
                | [] => Option.none
              | Option.none => Option.none
            else Option.none
          | [] => Option.none
        | Option.none => Option.none
      else Option.none
    | [] => Option.none
termination_by structural fuel _ => fuel

end

/-- Model of `json.loads`: parse one JSON document, allowing trailing
whitespace only.  The fuel bounds the nesting depth by twice the input
length, which every input can only underrun. -/
def json_loads (s : String) : Option PyVal :=
  match parseVal (2 * s.length + 8) s.data with
  | Option.some (v, rest) =>
    match skipWs rest with
    | [] => Option.some v
    | _ :: _ => Option.none
  | Option.none => Option.none

/-- Boolean success test for an embedded fallible expression. -/
def isOkE {α : Type} : Except PyErr α → Bool
  | Except.ok _ => true
  | Except.error _ => false

/-- Component-specific defaults of `_build_payload`: the two components are
token-identical except for the default model identifier, context size and
temperature. -/
structure Defaults where
  model : String
  ctx_size : Int
  temperature : ℚ

/-- Defaults of `GradioLLM._build_payload` in `my_ai.py`. -/
def myai_defaults : Defaults :=
  Defaults.mk "n8n_Qwen3-8B" 32192 (mkRat 4 10)

/-- Defaults of `GradioSpaceChat._build_payload` in `transformation.py`. -/
def gradio_defaults : Defaults :=
  Defaults.mk "Meta-Llama-3.1-8B-Instruct.Q6_K.gguf" 8192 (mkRat 1 10)

/-- The keyword-argument bag `_build_payload` reads via `kwargs.get`: the
eleven documented fields plus the `messages` sequence consulted by the
message fallback.  A `none` field is an absent key. -/
structure Bag where
  message : Option PyVal := Option.none
  messages : Option PyVal := Option.none
  history : Option PyVal := Option.none
  model : Option PyVal := Option.none
  system_message : Option PyVal := Option.none
  max_tokens : Option PyVal := Option.none
  ctx_size : Option PyVal := Option.none
  temperature : Option PyVal := Option.none
  top_p : Option PyVal := Option.none
  top_k : Option PyVal := Option.none
  repeat_penalty : Option PyVal := Option.none
  long_duration : Option PyVal := Option.none

/-- The payload returned by `_build_payload`: the positional `data` array
plus the routing index `fn_index`. -/
structure Payload where
  data : List PyVal
  fn_index : Nat

/-- Resolution of the first payload slot, line for line from
`kwargs.get("message") or kwargs.get("messages", [...default...])[0]["content"]`:
Python `or` keeps the left operand only when truthy, and the right operand
subscripts the `messages` value at 0 and then at `"content"`, either of
which can raise. -/
def resolve_message (b : Bag) : Except PyErr PyVal :=
  let m := b.message.getD PyVal.none
  if pyTruthy m then Except.ok m
  else
    let msgs := b.messages.getD
      (PyVal.list [PyVal.dict [("role", PyVal.str "user"), ("content", PyVal.str "")]])
    match pyIndexZero msgs with
    | Except.error e => Except.error e
    | Except.ok first => pySubscrStr first "content"

/-- The `_build_payload` body shared by both components: each remaining
field is `kwargs.get(name, default)`, and the result is the fixed
11-element positional array plus `fn_index = 0`. -/
def build_payload (d : Defaults) (b : Bag) : Except PyErr Payload :=
  match resolve_message b with
  | Except.error e => Except.error e
  | Except.ok message =>
    Except.ok (Payload.mk
      [ message,
        b.history.getD (PyVal.list []),
        b.model.getD (PyVal.str d.model),
        b.system_message.getD (PyVal.str "You are a helpful assistant."),
        b.max_tokens.getD (PyVal.int 4096),
        b.ctx_size.getD (PyVal.int d.ctx_size),
        b.temperature.getD (PyVal.float d.temperature),
        b.top_p.getD (PyVal.float (mkRat 95 100)),
        b.top_k.getD (PyVal.int 40),
        b.repeat_penalty.getD (PyVal.float (mkRat 1 1)),
        b.long_duration.getD (PyVal.bool false) ]
      0)

/-- Modelled from the spec: a parameter bag with every missing documented
field filled in with its documented default.  With no `messages` sequence in
the bag the documented default of the `message` slot is the empty string;
the other defaults are the literals of section 4.1 (component-specific ones
taken from `d`). -/
def fill_documented_defaults (d : Defaults) (b : Bag) : Bag :=
  { b with
    message := Option.some (b.message.getD (PyVal.str "")),
    history := Option.some (b.history.getD (PyVal.list [])),
    model := Option.some (b.model.getD (PyVal.str d.model)),
    system_message := Option.some (b.system_message.getD (PyVal.str "You are a helpful assistant.")),
    max_tokens := Option.some (b.max_tokens.getD (PyVal.int 4096)),
    ctx_size := Option.some (b.ctx_size.getD (PyVal.int d.ctx_size)),
    temperature := Option.some (b.temperature.getD (PyVal.float d.temperature)),
    top_p := Option.some (b.top_p.getD (PyVal.float (mkRat 95 100))),
    top_k := Option.some (b.top_k.getD (PyVal.int 40)),
    repeat_penalty := Option.some (b.repeat_penalty.getD (PyVal.float (mkRat 1 1))),
    long_duration := Option.some (b.long_duration.getD (PyVal.bool false)) }

/-- Zeroed usage block attached to every response and chunk. -/
structure Usage where
  prompt_tokens : Nat
  completion_tokens : Nat
  total_tokens : Nat
  deriving DecidableEq

/-- The assistant message inside a completion choice; the content carries
whatever value `raw["data"][0]` produced. -/
structure ChatMessage where
  role : String
  content : PyVal

/-- One choice of the completion result. -/
structure Choice where
  message : ChatMessage
  finish_reason : String
  index : Nat

/-- The completion result `transform_response` constructs. -/
structure ModelResponse where
  model : String
  choices : List Choice
  usage : Usage

/-- `GradioSpaceChat.transform_response`: parse the body as JSON
(`response.json()`), take `raw["data"][0]` as the assistant text, and wrap
it in a single-choice response with finish reason `"stop"`, index 0 and
zeroed usage.  Every raised exception propagates. -/
def transform_response (body : String) : Except PyErr ModelResponse :=
  match json_loads body with
  | Option.none => Except.error PyErr.jsonDecodeError
  | Option.some raw =>
    match pySubscrStr raw "data" with
    | Except.error e => Except.error e
    | Except.ok d =>
      match pyIndexZero d with
      | Except.error e => Except.error e
      | Except.ok assistant_text =>
        Except.ok (ModelResponse.mk "gradio-llama"
          [Choice.mk (ChatMessage.mk "assistant" assistant_text) "stop" 0]
          (Usage.mk 0 0 0))

/-- The decoding step of `GradioLLM._call_space` in `my_ai.py`:
`resp.json()["data"][0]`, exceptions propagating. -/
def call_space (body : String) : Except PyErr PyVal :=
  match json_loads body with
  | Option.none => Except.error PyErr.jsonDecodeError
  | Option.some raw =>
    match pySubscrStr raw "data" with
    | Except.error e => Except.error e
    | Except.ok d => pyIndexZero d

/-- A `GenericStreamingChunk` as built by `_sse_to_chunk` in both
components. -/
structure Chunk where
  finish_reason : Option String
  index : Nat
  is_finished : Bool
  text : String
  usage : Usage
  deriving DecidableEq

/-- `_sse_to_chunk`: finish reason `"stop"` exactly on the finished chunk,
index 0, zeroed usage. -/
def sse_to_chunk (text : String) (finished : Bool) : Chunk :=
  Chunk.mk (if finished then Option.some "stop" else Option.none) 0 finished text
    (Usage.mk 0 0 0)

/-- Prefix test on the character content of two byte strings, the semantics
of `bytes.startswith(bytes)`. -/
def starts_with (s pre : String) : Bool :=
  pre.data.isPrefixOf s.data

/-- Drop of leading bytes, the semantics of `line[n:]` on a byte string
(`.decode()` is the identity on this representation; every dropped prefix in
the code is the ASCII `"data: "`). -/
def bytes_drop (line : String) (n : Nat) : String :=
  String.mk (line.data.drop n)

/-- Python `line.startswith(pattern)`: a `str` receiver accepts only `str`
patterns and a `bytes` receiver only `bytes` patterns — any other pattern
raises `TypeError`; a receiver without a `startswith` attribute raises
`AttributeError`. -/
def pyStartswith : PyVal → PyVal → Except PyErr Bool
  | PyVal.str s, PyVal.str p => Except.ok (starts_with s p)
  | PyVal.bytes s, PyVal.bytes p => Except.ok (starts_with s p)
  | PyVal.str _, _ => Except.error PyErr.typeError
  | PyVal.bytes _, _ => Except.error PyErr.typeError
  | _, _ => Except.error PyErr.attributeError

/-- The `try` block of the streaming loops:
`json.loads(chunk)`, then `payload[0]`, then `buffer += partial` — the last
step requires the fragment to be a `str`, otherwise the concatenation raises
`TypeError`.  Any raised exception selects the `except` fallback. -/
def fragment_attempt (chunk : String) : Except PyErr String :=
  match json_loads chunk with
  | Option.none => Except.error PyErr.jsonDecodeError
  | Option.some v =>
    match pyIndexZero v with
    | Except.error e => Except.error e
    | Except.ok frag =>
      match frag with
      | PyVal.str s => Except.ok s
      | _ => Except.error PyErr.typeError

namespace MyAI

/-- Loop body of `GradioLLM._stream_space` over the byte lines of
`resp.iter_lines()` (the `requests` iterator yields `bytes`, so the
`startswith(b"data: ")` test is a plain prefix test): blank lines are
skipped, unprefixed lines are skipped, `[DONE]` yields the buffer when
non-empty and breaks, a parsed fragment is appended to the buffer which is
then yielded, and any exception in the `try` block yields the raw chunk
without touching the buffer.  The result is the list of yielded strings. -/
def stream_go (buffer : String) : List String → List String
  | [] => []
  | line :: rest =>
    if line = "" then stream_go buffer rest
    else if starts_with line "data: " then
      let chunk := bytes_drop line 6
      if chunk = "[DONE]" then
        if buffer ≠ "" then [buffer] else []
      else
        match fragment_attempt chunk with
        | Except.ok frag => (buffer ++ frag) :: stream_go (buffer ++ frag) rest
        | Except.error _ => chunk :: stream_go buffer rest
    else stream_go buffer rest

/-- `GradioLLM._stream_space`, given the lines of the event stream. -/
def stream_space (lines : List String) : List String :=
  stream_go "" lines

/-- `GradioLLM.streaming`: every string yielded by `_stream_space` is
wrapped as an unfinished chunk, and one final chunk with empty text and the
finished flag is yielded unconditionally after the loop. -/
def streaming (lines : List String) : List Chunk :=
  (stream_space lines).map (fun t => sse_to_chunk t false) ++ [sse_to_chunk "" true]

end MyAI

namespace GradioSpaceChat

/-- Loop body of `GradioSpaceChat.get_sync_custom_stream_wrapper` over the
text lines of `httpx`'s `resp.iter_lines()` (which yields `str`): blank
lines are skipped, and every other line reaches
`line.startswith(b"data: ")` — a `str` receiver with a `bytes` pattern.
The result pairs the chunks yielded before the loop ended with the
exception, if any, that aborted it.  (The yielding branch guarded by the
prefix test is unreachable: the test itself raises, and even its body,
`line[6:].decode()`, would raise `AttributeError` on a `str`.) -/
def stream_go (buffer : String) : List String → List Chunk × Option PyErr
  | [] => ([], Option.none)
  | line :: rest =>
    if line = "" then stream_go buffer rest
    else
      match pyStartswith (PyVal.str line) (PyVal.bytes "data: ") with
      | Except.error e => ([], Option.some e)
      | Except.ok false => stream_go buffer rest
      | Except.ok true => ([], Option.some PyErr.attributeError)

/-- `GradioSpaceChat.get_sync_custom_stream_wrapper`, given the lines of
the event stream. -/
def get_sync_custom_stream_wrapper (lines : List String) : List Chunk × Option PyErr :=
  stream_go "" lines

/-- `GradioSpaceChat.get_async_custom_stream_wrapper`: its loop body is
token-identical to the sync wrapper (and `aiter_lines()` likewise yields
`str`), so it is embedded by the same function. -/
def get_async_custom_stream_wrapper (lines : List String) : List Chunk × Option PyErr :=
  get_sync_custom_stream_wrapper lines

end GradioSpaceChat

/-- The streaming scenario of the spec: two fragments and the end marker. -/
def demo_lines : List String :=
  ["data: [\"He\"]", "data: [\"llo\"]", "data: [DONE]"]

/-- The malformed mid-stream scenario of the spec. -/
def fallback_lines : List String :=
  ["data: [\"He\"]", "data: not-json", "data: [DONE]"]

/-- A stream whose middle payload parses to a non-indexable value. -/
def nonindexable_lines : List String :=
  ["data: [\"He\"]", "data: 42", "data: [DONE]"]

/-- A stream whose middle payload parses to an array with a non-string
first element. -/
def nonstring_lines : List String :=
  ["data: [\"He\"]", "data: [42]", "data: [DONE]"]

/-- A stream that closes without ever carrying the end marker. -/
def no_done_lines : List String :=
  ["data: [\"He\"]"]

/-- The emitted-chunk sequence claimed for the streaming scenario. -/
def claimed_demo_chunks : List Chunk :=
  [sse_to_chunk "He" false, sse_to_chunk "Hello" false, sse_to_chunk "Hello" true]

/-- The well-formed non-streaming response body of the spec scenario. -/
def hello_body : String := "\x7b\"data\": [\"hello\"]\x7d"

/-- The malformed non-streaming response body of the spec scenario. -/
def empty_obj_body : String := "\x7b\x7d"

/-- A body whose `data` value is a (non-empty) string rather than an
array. -/
def string_data_body : String := "\x7b\"data\": \"hi\"\x7d"

/-- Success condition of the subscript chain `raw["data"][0]` on the value
of the `data` key: a non-empty list, string or byte string. -/
def pyIndexableAt0 : PyVal → Bool
  | PyVal.list (_ :: _) => true
  | PyVal.str s => !s.data.isEmpty
  | PyVal.bytes s => !s.data.isEmpty
  | _ => false

/-- The bag with every field absent. -/
def empty_bag : Bag := {}

/-- A bag with a present but falsy `message` next to a `messages`
sequence. -/
def c5_bag : Bag :=
  { message := Option.some (PyVal.str ""),
    messages := Option.some (PyVal.list
      [PyVal.dict [("role", PyVal.str "user"), ("content", PyVal.str "hi")]]) }

/-- A bag whose `messages` field is present but an empty sequence. -/
def c6_bag : Bag :=
  { messages := Option.some (PyVal.list []) }

/-- A bag with a present, truthy `message`. -/
def w5_bag : Bag :=
  { message := Option.some (PyVal.str "yo") }

/-- A bag carrying values of unexpected types in several fields. -/
def w6_bag : Bag :=
  { history := Option.some (PyVal.str "oops"),
    temperature := Option.some (PyVal.str "hot"),
    top_k := Option.some (PyVal.list [PyVal.none]) }

/-- Resolution of the message slot when no `messages` sequence is in the
bag: the explicit `message` when truthy, the empty string otherwise (via
the default `[ ... "content": "" ... ]` chain). -/
theorem resolve_message_of_no_messages (b : Bag) (h : b.messages = Option.none) :
    resolve_message b = Except.ok
      (if pyTruthy (b.message.getD PyVal.none) then b.message.getD PyVal.none
       else PyVal.str "") := by
  unfold resolve_message
  cases ht : pyTruthy (b.message.getD PyVal.none) with
  | true => simp [ht]
  | false => simp [ht, h, pyIndexZero, pySubscrStr, dictGet]

/-- The sync wrapper of `GradioSpaceChat` yields no chunk on any input. -/
theorem gradio_no_chunks (buffer : String) (lines : List String) :
    (GradioSpaceChat.stream_go buffer lines).1 = [] := by
  induction lines with
  | nil => rfl
  | cons l rest ih =>
    unfold GradioSpaceChat.stream_go
    by_cases hl : l = ""
    · simpa [hl] using ih
    · simp [hl, pyStartswith]

/-- Success of `v[0]` coincides with `v` being a non-empty list, string or
byte string. -/
theorem pyIndexZero_isOk (v : PyVal) : isOkE (pyIndexZero v) = pyIndexableAt0 v := by
  cases v with
  | list xs => cases xs <;> rfl
  | str s => cases hs : s.data <;> simp [pyIndexZero, pyIndexableAt0, hs, isOkE]
  | bytes s => cases hs : s.data <;> simp [pyIndexZero, pyIndexableAt0, hs, isOkE]
  | none => rfl
  | bool b => rfl
  | int n => rfl
  | float q => rfl
  | dict kvs => rfl

/-- C1: for every parameter bag over the eleven documented fields (so with
no `messages` key), `_build_payload` succeeds with a `data` array of
exactly 11 elements in the documented order, every missing field is
replaced by its documented default, and building from the partial bag
equals building from the bag with the defaults filled in explicitly.  The
statement is uniform in the component defaults `d`, so it covers both
components. -/
theorem claim_C1 (d : Defaults) (b : Bag) (h : b.messages = Option.none) :
    build_payload d b = build_payload d (fill_documented_defaults d b)
    ∧ ∃ p, build_payload d b = Except.ok p ∧ p.data.length = 11
      ∧ (b.message = Option.none → p.data[0]? = Option.some (PyVal.str ""))
      ∧ (b.history = Option.none → p.data[1]? = Option.some (PyVal.list []))
      ∧ (b.model = Option.none → p.data[2]? = Option.some (PyVal.str d.model))
      ∧ (b.system_message = Option.none →
          p.data[3]? = Option.some (PyVal.str "You are a helpful assistant."))
      ∧ (b.max_tokens = Option.none → p.data[4]? = Option.some (PyVal.int 4096))
      ∧ (b.ctx_size = Option.none → p.data[5]? = Option.some (PyVal.int d.ctx_size))
      ∧ (b.temperature = Option.none → p.data[6]? = Option.some (PyVal.float d.temperature))
      ∧ (b.top_p = Option.none → p.data[7]? = Option.some (PyVal.float (mkRat 95 100)))
      ∧ (b.top_k = Option.none → p.data[8]? = Option.some (PyVal.int 40))
      ∧ (b.repeat_penalty = Option.none → p.data[9]? = Option.some (PyVal.float (mkRat 1 1)))
      ∧ (b.long_duration = Option.none → p.data[10]? = Option.some (PyVal.bool false)) := by
  have hfm : (fill_documented_defaults d b).messages = Option.none := by
    simpa [fill_documented_defaults] using h
  have hr := resolve_message_of_no_messages b h
  have hrf := resolve_message_of_no_messages _ hfm
  have hmv : (if pyTruthy ((fill_documented_defaults d b).message.getD PyVal.none)
      then (fill_documented_defaults d b).message.getD PyVal.none else PyVal.str "")
      = (if pyTruthy (b.message.getD PyVal.none) then b.message.getD PyVal.none
         else PyVal.str "") := by
    cases hm : b.message <;> simp [fill_documented_defaults, hm, pyTruthy]
  constructor
  · unfold build_payload
    rw [hr, hrf, hmv]
    simp [fill_documented_defaults]
  · have hbuild : build_payload d b = Except.ok (Payload.mk
        [ (if pyTruthy (b.message.getD PyVal.none) then b.message.getD PyVal.none
           else PyVal.str ""),
          b.history.getD (PyVal.list []),
          b.model.getD (PyVal.str d.model),
          b.system_message.getD (PyVal.str "You are a helpful assistant."),
          b.max_tokens.getD (PyVal.int 4096),
          b.ctx_size.getD (PyVal.int d.ctx_size),
          b.temperature.getD (PyVal.float d.temperature),
          b.top_p.getD (PyVal.float (mkRat 95 100)),
          b.top_k.getD (PyVal.int 40),
          b.repeat_penalty.getD (PyVal.float (mkRat 1 1)),
          b.long_duration.getD (PyVal.bool false) ] 0) := by
      unfold build_payload
      rw [hr]
    refine ⟨_, hbuild, rfl, ?_, ?_, ?_, ?_, ?_, ?_, ?_, ?_, ?_, ?_, ?_⟩ <;>
      intro hmiss <;> simp [hmiss, pyTruthy]

/-- C1 witness: the claim instantiated at the empty bag and the
`transformation.py` defaults. -/
theorem claim_C1_witness :
    empty_bag.messages = Option.none
    ∧ build_payload gradio_defaults empty_bag
      = build_payload gradio_defaults (fill_documented_defaults gradio_defaults empty_bag) :=
  ⟨rfl, (claim_C1 gradio_defaults empty_bag rfl).1⟩

/-- C2 counterexample: on the spec's streaming scenario neither component
emits the claimed three-chunk sequence. -/
theorem claim_C2_counterexample :
    MyAI.streaming demo_lines ≠ claimed_demo_chunks
    ∧ (GradioSpaceChat.get_sync_custom_stream_wrapper demo_lines).1 ≠ claimed_demo_chunks :=
  ⟨by decide, by decide⟩

/-- C2 amended: on the lines `data: ["He"]`, `data: ["llo"]`,
`data: [DONE]`, the `my_ai.py` reassembler yields the cumulative strings
"He", "Hello", "Hello", which `streaming` emits as three unfinished chunks
(the end-marker flush included) followed by the unconditional final empty
finished chunk; the `GradioSpaceChat` wrappers emit no chunk and abort with
a `TypeError` at the first line (bytes pattern against str lines). -/
theorem claim_C2_amended :
    MyAI.stream_space demo_lines = ["He", "Hello", "Hello"]
    ∧ MyAI.streaming demo_lines = [sse_to_chunk "He" false, sse_to_chunk "Hello" false,
        sse_to_chunk "Hello" false, sse_to_chunk "" true]
    ∧ GradioSpaceChat.get_sync_custom_stream_wrapper demo_lines
      = ([], Option.some PyErr.typeError)
    ∧ GradioSpaceChat.get_async_custom_stream_wrapper demo_lines
      = ([], Option.some PyErr.typeError) :=
  ⟨rfl, rfl, rfl, rfl⟩

/-- C3 counterexample: on the malformed mid-stream scenario no emitted
chunk is a finished chunk carrying "He" — `my_ai.py`'s only finished chunk
is the final empty one, and the `GradioSpaceChat` wrapper emits nothing. -/
theorem claim_C3_counterexample :
    (MyAI.streaming fallback_lines).getLast? = Option.some (sse_to_chunk "" true)
    ∧ ((MyAI.streaming fallback_lines).all
        fun c => !(c.is_finished && c.text == "He")) = true
    ∧ (GradioSpaceChat.get_sync_custom_stream_wrapper fallback_lines).1 = [] :=
  ⟨rfl, by decide, rfl⟩

/-- C3 amended: on the lines `data: ["He"]`, `data: not-json`,
`data: [DONE]`, the `my_ai.py` reassembler emits "He", then the raw
fallback "not-json" without touching the buffer, then the buffer "He" at
the end marker — all as unfinished chunks — followed by the unconditional
final empty finished chunk; the `GradioSpaceChat` wrapper emits nothing and
aborts with a `TypeError` at the first line. -/
theorem claim_C3_amended :
    MyAI.stream_space fallback_lines = ["He", "not-json", "He"]
    ∧ MyAI.streaming fallback_lines = [sse_to_chunk "He" false,
        sse_to_chunk "not-json" false, sse_to_chunk "He" false, sse_to_chunk "" true]
    ∧ GradioSpaceChat.get_sync_custom_stream_wrapper fallback_lines
      = ([], Option.some PyErr.typeError) :=
  ⟨rfl, rfl, rfl⟩

/-- C4 counterexample: a stream that closes without the end marker still
makes `my_ai.py`'s `streaming` emit a finished chunk — the unconditional
final empty one. -/
theorem claim_C4_counterexample :
    "data: [DONE]" ∉ no_done_lines
    ∧ MyAI.streaming no_done_lines = [sse_to_chunk "He" false, sse_to_chunk "" true]
    ∧ (sse_to_chunk "" true).is_finished = true :=
  ⟨by decide, rfl, rfl⟩

/-- C4 amended: on every event stream — with or without the end marker —
the `GradioSpaceChat` wrappers emit no chunk at all (so in particular no
finished one), while `my_ai.py`'s `streaming` always ends with exactly the
final empty finished chunk, every earlier chunk being unfinished; its
reassembler reacts to the end marker only by flushing the buffer, never by
setting the finished flag. -/
theorem claim_C4_amended (lines : List String) :
    (GradioSpaceChat.get_sync_custom_stream_wrapper lines).1 = []
    ∧ (GradioSpaceChat.get_async_custom_stream_wrapper lines).1 = []
    ∧ (MyAI.streaming lines).getLast? = Option.some (sse_to_chunk "" true)
    ∧ ((MyAI.streaming lines).dropLast.all fun c => !c.is_finished) = true := by
  refine ⟨gradio_no_chunks "" lines, gradio_no_chunks "" lines, ?_, ?_⟩
  · simp [MyAI.streaming]
  · simp [MyAI.streaming, sse_to_chunk]

/-- C9: every response stream containing a non-empty line makes both
`GradioSpaceChat` stream wrappers raise a `TypeError` before emitting any
chunk, because the prefix test hands `str.startswith` a bytes pattern — no
line can ever match the prefix as written. -/
theorem claim_C9 (lines : List String) (h : ∃ l, l ∈ lines ∧ l ≠ "") :
    GradioSpaceChat.get_sync_custom_stream_wrapper lines = ([], Option.some PyErr.typeError)
    ∧ GradioSpaceChat.get_async_custom_stream_wrapper lines
      = ([], Option.some PyErr.typeError)
    ∧ ∀ l : String, pyStartswith (PyVal.str l) (PyVal.bytes "data: ")
      = Except.error PyErr.typeError := by
  have main : ∀ (ls : List String) (buffer : String), (∃ l, l ∈ ls ∧ l ≠ "") →
      GradioSpaceChat.stream_go buffer ls = ([], Option.some PyErr.typeError) := by
    intro ls
    induction ls with
    | nil =>
      intro buffer hh
      rcases hh with ⟨l, hl, _⟩
      cases hl
    | cons a rest ih =>
      intro buffer hh
      unfold GradioSpaceChat.stream_go
      by_cases ha : a = ""
      · rcases hh with ⟨l, hl, hne⟩
        rcases List.mem_cons.mp hl with rfl | hmem
        · exact absurd ha hne
        · simpa [ha] using ih buffer ⟨l, hmem, hne⟩
      · simp [ha, pyStartswith]
  exact ⟨main lines "" h, main lines "" h, fun l => rfl⟩

/-- C9 witness: the theorem instantiated at a one-line stream. -/
theorem claim_C9_witness :
    (∃ l, l ∈ ["data: hi"] ∧ l ≠ "")
    ∧ GradioSpaceChat.get_sync_custom_stream_wrapper ["data: hi"]
      = ([], Option.some PyErr.typeError) :=
  ⟨⟨"data: hi", by simp, by decide⟩,
   (claim_C9 ["data: hi"] ⟨"data: hi", by simp, by decide⟩).1⟩

/-- C5 counterexample: a present but falsy `message` (the empty string)
does not occupy slot 1 — the `messages` path wins, because the resolution
uses Python `or` (truthiness), not presence. -/
theorem claim_C5_counterexample :
    c5_bag.message = Option.some (PyVal.str "")
    ∧ (build_payload gradio_defaults c5_bag).map (fun p => p.data[0]?)
      = Except.ok (Option.some (PyVal.str "hi"))
    ∧ Option.some (PyVal.str "hi") ≠ Option.some (PyVal.str "") := by
  refine ⟨rfl, rfl, ?_⟩
  simp

/-- C5 amended: slot 1 is the explicit `message` field when it is present
and truthy; otherwise, when `messages` is absent, the empty string;
otherwise the value that subscripting the `messages` value at 0 and then at
`"content"` produces (when that chain succeeds).  A present but falsy
`message` is bypassed in favour of the `messages` path. -/
theorem claim_C5_amended (d : Defaults) (b : Bag) :
    (∀ v, b.message = Option.some v → pyTruthy v = true →
      (build_payload d b).map (fun p => p.data[0]?) = Except.ok (Option.some v))
    ∧ (pyTruthy (b.message.getD PyVal.none) = false → b.messages = Option.none →
      (build_payload d b).map (fun p => p.data[0]?)
        = Except.ok (Option.some (PyVal.str "")))
    ∧ (∀ m v, pyTruthy (b.message.getD PyVal.none) = false →
      b.messages = Option.some m →
      (match pyIndexZero m with
       | Except.error e => Except.error e
       | Except.ok first => pySubscrStr first "content") = Except.ok v →
      (build_payload d b).map (fun p => p.data[0]?) = Except.ok (Option.some v)) := by
  refine ⟨?_, ?_, ?_⟩
  · intro v hm ht
    simp [build_payload, resolve_message, hm, ht, Except.map]
  · intro ht hmsgs
    have hr := resolve_message_of_no_messages b hmsgs
    rw [ht] at hr
    simp at hr
    simp [build_payload, hr, Except.map]
  · intro m v ht hm hch
    have hr : resolve_message b = Except.ok v := by
      unfold resolve_message
      simpa [ht, hm] using hch
    simp [build_payload, hr, Except.map]

/-- C5 witness: a present truthy `message` occupies slot 1. -/
theorem claim_C5_witness :
    w5_bag.message = Option.some (PyVal.str "yo")
    ∧ pyTruthy (PyVal.str "yo") = true
    ∧ (build_payload myai_defaults w5_bag).map (fun p => p.data[0]?)
      = Except.ok (Option.some (PyVal.str "yo")) :=
  ⟨rfl, rfl, (claim_C5_amended myai_defaults w5_bag).1 (PyVal.str "yo") rfl rfl⟩

/-- C6 counterexample: a bag whose `messages` field is present but an empty
sequence makes `_build_payload` raise an `IndexError` — the builder is not
total. -/
theorem claim_C6_counterexample :
    c6_bag.messages = Option.some (PyVal.list [])
    ∧ build_payload gradio_defaults c6_bag = Except.error PyErr.indexError :=
  ⟨rfl, rfl⟩

/-- C6 amended: whenever the message-slot resolution succeeds (in
particular whenever `message` is present and truthy, or `messages` is
absent), `_build_payload` returns without raising, and every present field
is passed through verbatim — unvalidated — into its positional slot. -/
theorem claim_C6_amended (d : Defaults) (b : Bag) (m : PyVal)
    (h : resolve_message b = Except.ok m) :
    ∃ p, build_payload d b = Except.ok p
      ∧ p.data.length = 11
      ∧ p.data[0]? = Option.some m
      ∧ (∀ v, b.history = Option.some v → p.data[1]? = Option.some v)
      ∧ (∀ v, b.model = Option.some v → p.data[2]? = Option.some v)
      ∧ (∀ v, b.system_message = Option.some v → p.data[3]? = Option.some v)
      ∧ (∀ v, b.max_tokens = Option.some v → p.data[4]? = Option.some v)
      ∧ (∀ v, b.ctx_size = Option.some v → p.data[5]? = Option.some v)
      ∧ (∀ v, b.temperature = Option.some v → p.data[6]? = Option.some v)
      ∧ (∀ v, b.top_p = Option.some v → p.data[7]? = Option.some v)
      ∧ (∀ v, b.top_k = Option.some v → p.data[8]? = Option.some v)
      ∧ (∀ v, b.repeat_penalty = Option.some v → p.data[9]? = Option.some v)
      ∧ (∀ v, b.long_duration = Option.some v → p.data[10]? = Option.some v) := by
  have hbuild : build_payload d b = Except.ok (Payload.mk
      [ m,
        b.history.getD (PyVal.list []),
        b.model.getD (PyVal.str d.model),
        b.system_message.getD (PyVal.str "You are a helpful assistant."),
        b.max_tokens.getD (PyVal.int 4096),
        b.ctx_size.getD (PyVal.int d.ctx_size),
        b.temperature.getD (PyVal.float d.temperature),
        b.top_p.getD (PyVal.float (mkRat 95 100)),
        b.top_k.getD (PyVal.int 40),
        b.repeat_penalty.getD (PyVal.float (mkRat 1 1)),
        b.long_duration.getD (PyVal.bool false) ] 0) := by
    unfold build_payload
    rw [h]
  refine ⟨_, hbuild, rfl, rfl, ?_, ?_, ?_, ?_, ?_, ?_, ?_, ?_, ?_, ?_⟩ <;>
    intro v hv <;> simp [hv]

/-- C6 witness: the amended theorem instantiated at a bag carrying values
of unexpected types, which land verbatim in their slots. -/
theorem claim_C6_witness :
    resolve_message w6_bag = Except.ok (PyVal.str "")
    ∧ w6_bag.temperature = Option.some (PyVal.str "hot")
    ∧ ∃ p, build_payload myai_defaults w6_bag = Except.ok p
      ∧ p.data.length = 11
      ∧ p.data[6]? = Option.some (PyVal.str "hot") := by
  refine ⟨rfl, rfl, ?_⟩
  rcases claim_C6_amended myai_defaults w6_bag (PyVal.str "") rfl with
    ⟨p, h1, h2, _, _, _, _, _, _, htemp, _⟩
  exact ⟨p, h1, h2, htemp (PyVal.str "hot") rfl⟩

/-- C7: decoding the remote response `\x7b"data": ["hello"]\x7d` yields a
single choice with role "assistant", content "hello", finish reason
"stop", index 0 and zeroed usage; the `my_ai.py` decoder extracts the same
text. -/
theorem claim_C7 :
    transform_response hello_body = Except.ok (ModelResponse.mk "gradio-llama"
      [Choice.mk (ChatMessage.mk "assistant" (PyVal.str "hello")) "stop" 0]
      (Usage.mk 0 0 0))
    ∧ call_space hello_body = Except.ok (PyVal.str "hello") :=
  ⟨rfl, rfl⟩

/-- Success of the tail of `transform_response` after the `data` value has
been extracted. -/
theorem transform_tail_isOk (d : PyVal) :
    isOkE (match pyIndexZero d with
      | Except.error e => (Except.error e : Except PyErr ModelResponse)
      | Except.ok a => Except.ok (ModelResponse.mk "gradio-llama"
          [Choice.mk (ChatMessage.mk "assistant" a) "stop" 0] (Usage.mk 0 0 0)))
      = pyIndexableAt0 d := by
  rw [← pyIndexZero_isOk]
  cases pyIndexZero d <;> rfl

/-- C8 counterexample: the body whose `data` value is the string "hi"
lacks a data array with at least one element, yet the decoder does not
fail — Python string indexing makes it return the content "h". -/
theorem claim_C8_counterexample :
    json_loads string_data_body = Option.some (PyVal.dict [("data", PyVal.str "hi")])
    ∧ transform_response string_data_body = Except.ok (ModelResponse.mk "gradio-llama"
        [Choice.mk (ChatMessage.mk "assistant" (PyVal.str "h")) "stop" 0] (Usage.mk 0 0 0))
    ∧ isOkE (transform_response string_data_body) = true
    ∧ call_space string_data_body = Except.ok (PyVal.str "h") :=
  ⟨rfl, rfl, rfl, rfl⟩

/-- C8 amended: the decoder fails exactly when the body is not valid JSON,
or its parsed value is not a dict with a `data` key, or the `data` value is
not a non-empty list, string or byte string — in particular it fails with
`KeyError` on `\x7b\x7d` and with a JSON decode error on every unparsable
body; but a `data` value that is a non-empty string (or byte string) is
indexed positionally and decoding succeeds. -/
theorem claim_C8_amended :
    (∀ body : String, isOkE (transform_response body) = true ↔
      ∃ kvs d, json_loads body = Option.some (PyVal.dict kvs)
        ∧ dictGet kvs "data" = Option.some d ∧ pyIndexableAt0 d = true)
    ∧ transform_response empty_obj_body = Except.error PyErr.keyError
    ∧ call_space empty_obj_body = Except.error PyErr.keyError
    ∧ (∀ body : String, json_loads body = Option.none →
        transform_response body = Except.error PyErr.jsonDecodeError) := by
  refine ⟨?_, rfl, rfl, ?_⟩
  · intro body
    unfold transform_response
    cases hj : json_loads body with
    | none => simp [isOkE]
    | some raw =>
      cases raw with
      | none => simp [pySubscrStr, isOkE]
      | bool b => simp [pySubscrStr, isOkE]
      | int n => simp [pySubscrStr, isOkE]
      | float q => simp [pySubscrStr, isOkE]
      | str s => simp [pySubscrStr, isOkE]
      | bytes s => simp [pySubscrStr, isOkE]
      | list xs => simp [pySubscrStr, isOkE]
      | dict kvs =>
        cases hd : dictGet kvs "data" with
        | none => simp [pySubscrStr, hd, isOkE]
        | some d =>
          simp only [pySubscrStr, hd]
          rw [transform_tail_isOk]
          constructor
          · intro hi
            exact ⟨kvs, d, rfl, hd, hi⟩
          · rintro ⟨kvs2, d2, he, hd2, hi⟩
            simp only [Option.some.injEq, PyVal.dict.injEq] at he
            subst he
            rw [hd] at hd2
            simp only [Option.some.injEq] at hd2
            subst hd2
            exact hi
  · intro body hbn
    unfold transform_response
    rw [hbn]

/-- C10: in the `my_ai.py` streaming loop, whenever any step of the
fragment attempt fails — JSON parse failure, a parsed value that does not
support indexing at 0 (such as `42`), or a first element that is not a
string (such as in `[42]`) — the raw chunk is yielded verbatim and the
accumulation buffer is left unchanged; concretely, on the example streams
the middle chunk is passed through raw and the final buffer flush still
carries only "He". -/
theorem claim_C10 :
    (∀ (buffer chunk : String) (rest : List String) (e : PyErr),
      fragment_attempt chunk = Except.error e → chunk ≠ "[DONE]" →
      MyAI.stream_go buffer (String.mk ("data: ".data ++ chunk.data) :: rest)
        = chunk :: MyAI.stream_go buffer rest)
    ∧ fragment_attempt "42" = Except.error PyErr.typeError
    ∧ fragment_attempt "[42]" = Except.error PyErr.typeError
    ∧ fragment_attempt "not-json" = Except.error PyErr.jsonDecodeError
    ∧ MyAI.stream_space nonindexable_lines = ["He", "42", "He"]
    ∧ MyAI.stream_space nonstring_lines = ["He", "[42]", "He"]
    ∧ MyAI.stream_space fallback_lines = ["He", "not-json", "He"] := by
  refine ⟨?_, rfl, rfl, rfl, rfl, rfl, rfl⟩
  intro buffer chunk rest e he hd
  have hdata6 : "data: ".data = ['d', 'a', 't', 'a', ':', ' '] := rfl
  have hline : String.mk ("data: ".data ++ chunk.data) ≠ "" := by
    rw [Ne, String.ext_iff, hdata6]
    simp
  have hpre : starts_with (String.mk ("data: ".data ++ chunk.data)) "data: " = true := by
    show "data: ".data.isPrefixOf ("data: ".data ++ chunk.data) = true
    rw [List.isPrefixOf_iff_prefix]
    exact List.prefix_append _ _
  have hdrop : bytes_drop (String.mk ("data: ".data ++ chunk.data)) 6 = chunk := by
    show String.mk (("data: ".data ++ chunk.data).drop 6) = chunk
    have h6 : ("data: ".data ++ chunk.data).drop 6 = chunk.data := by
      have : (6 : Nat) = "data: ".data.length := rfl
      rw [this, List.drop_left]
    rw [h6]
  conv_lhs => unfold MyAI.stream_go
  rw [if_neg hline, if_pos hpre, hdrop, if_neg hd, he]

/-- C10 witness: the general fallback conclusion instantiated at a
non-empty buffer and the unparsable chunk "not-json". -/
theorem claim_C10_witness :
    fragment_attempt "not-json" = Except.error PyErr.jsonDecodeError
    ∧ ("not-json" : String) ≠ "[DONE]"
    ∧ MyAI.stream_go "abc" [String.mk ("data: ".data ++ "not-json".data)]
      = ["not-json"] := by
  refine ⟨rfl, by decide, ?_⟩
  have h := claim_C10.1 "abc" "not-json" [] PyErr.jsonDecodeError rfl (by decide)
  simpa [MyAI.stream_go] using h

/-- C8 witness: the success characterization instantiated at the
well-formed body, whose parsed value is a dict with a non-empty `data`
array. -/
theorem claim_C8_witness :
    isOkE (transform_response hello_body) = true :=
  (claim_C8_amended.1 hello_body).mpr
    ⟨[("data", PyVal.list [PyVal.str "hello"])], PyVal.list [PyVal.str "hello"],
      rfl, rfl, rfl⟩
